import Mathlib

/-!
Verification of the GEDCOM story-checking rules in src/stories.py
(repository CDavantzis/SSW555-Project).

The development shallowly embeds the record graph consumed by the rules
and the rule functions themselves.  Rules that can raise a Python
exception (AttributeError on a missing attribute, NameError on an
unbound local, TypeError on a wrong argument) are embedded in the
Except monad; rules that cannot raise are plain functions.

The companion modules gedcom.py and tools.py of the repository are not
available; the accessors they provide (date objects, famsOf, children
resolution, marriage_end, spouses, days_between, years_between,
marriage ages) are modelled from the specification, each marked with a
doc comment starting with the words Modelled from the spec.
-/

namespace SSW

/-! ## Calendar dates

Python datetime values compare lexicographically by (year, month, day)
and subtract to a signed day count.  Dates are modelled by a year,
month and day with a proleptic Gregorian serial-day function giving
the subtraction. -/

structure Date where
  year : Nat
  month : Nat
  day : Nat
deriving DecidableEq, Repr

def Date.lt (a b : Date) : Bool :=
  decide (a.year < b.year) ||
    (decide (a.year = b.year) && (decide (a.month < b.month) ||
      (decide (a.month = b.month) && decide (a.day < b.day))))

def Date.le (a b : Date) : Bool := Date.lt a b || decide (a = b)

def Date.ge (a b : Date) : Bool := Date.le b a

def isLeap (y : Nat) : Bool := (y % 4 == 0 && y % 100 != 0) || (y % 400 == 0)

def monthLength (y m : Nat) : Nat :=
  if m = 1 then 31 else if m = 2 then (if isLeap y then 29 else 28)
  else if m = 3 then 31 else if m = 4 then 30 else if m = 5 then 31
  else if m = 6 then 30 else if m = 7 then 31 else if m = 8 then 31
  else if m = 9 then 30 else if m = 10 then 31 else if m = 11 then 30 else 31

def daysBeforeMonth (y m : Nat) : Nat :=
  (List.range (m - 1)).foldl (fun acc i => acc + monthLength y (i + 1)) 0

/-- Serial day number of a proleptic Gregorian date (rata die). -/
def Date.toDays (d : Date) : Nat :=
  365 * (d.year - 1) + (d.year - 1) / 4 - (d.year - 1) / 100 + (d.year - 1) / 400
    + daysBeforeMonth d.year d.month + d.day

/-- Modelled from the spec: tools.days_between (tools.py is not under src/).
Section 4.1 specifies day counts between two calendar dates; the
sibling-spacing thresholds treat the pair as unordered, so the value is
the magnitude of the signed day difference. -/
def days_between (x y : Date) : Nat :=
  ((x.toDays : Int) - (y.toDays : Int)).natAbs

/-- Modelled from the spec: tools.years_between (tools.py is not under src/).
Section 4.1 and section 3 specify a signed whole-year difference computed by
calendar year/month/day comparison, not by day-count division. -/
def years_between (x y : Date) : Int :=
  ((x.year : Int) - (y.year : Int)) -
    (if x.month < y.month ∨ (x.month = y.month ∧ x.day < y.day) then 1 else 0)

/-! ## The record graph

gedcom.File exposes individuals and families with optional events and
cross references; references resolve to records of the same file. -/

structure Individual where
  xref : String
  birth_date : Option Date
  death_date : Option Date
  fams : List String
deriving DecidableEq, Repr

structure Family where
  xref : String
  husband : Option String
  wife : Option String
  children : List String
  marriage_date : Option Date
  divorce_date : Option Date
deriving DecidableEq, Repr

structure File where
  individuals : List Individual
  families : List Family
deriving DecidableEq, Repr

def File.findIndi (g : File) (x : String) : Option Individual :=
  g.individuals.find? (fun i => i.xref == x)

def File.findFam (g : File) (x : String) : Option Family :=
  g.families.find? (fun f => f.xref == x)

/-- Modelled from the spec: the gedcom.py family accessor for the husband
(section 6: per-family accessors for husband/wife with presence checks;
section 3: references, if present, resolve to existing Individuals).
An absent husband is the absent value, on which Python attribute access
raises. -/
def Family.husbandI (fam : Family) (g : File) : Option Individual :=
  fam.husband.bind g.findIndi

/-- Modelled from the spec: the gedcom.py family accessor for the wife,
as for the husband. -/
def Family.wifeI (fam : Family) (g : File) : Option Individual :=
  fam.wife.bind g.findIndi

/-- Modelled from the spec: the gedcom.py accessor resolving the ordered
child references of a family (section 3). -/
def Family.childrenI (fam : Family) (g : File) : List Individual :=
  fam.children.filterMap g.findIndi

/-- Modelled from the spec: the gedcom.py accessor families of kind FAMS,
the ordered families in which the individual is a spouse (section 3). -/
def Individual.famsOf (i : Individual) (g : File) : List Family :=
  i.fams.filterMap g.findFam

/-- Modelled from the spec: the gedcom.py spouses accessor (section 4.2),
the husband/wife counterparts across every family in which the
individual is a spouse. -/
def Individual.spousesOf (i : Individual) (g : File) : List Individual :=
  (i.famsOf g).filterMap fun fam =>
    (if fam.husband == some i.xref then fam.wife else fam.husband).bind g.findIndi

/-- Python attribute access: succeeds on a present value and raises
AttributeError on the absent value. -/
def getAttr {α : Type} (o : Option α) (err : String) : Except String α :=
  match o with
  | some a => Except.ok a
  | none => Except.error err

abbrev M := Except String

/-- itertools.combinations(l, 2) order: pairs (l[i], l[j]) with i < j. -/
def combinations2 {α : Type} : List α → List (α × α)
  | [] => []
  | x :: xs => (xs.map fun y => (x, y)) ++ combinations2 xs

/-- The passed/failed evidence lists a story function accumulates. -/
structure Output (ε : Type) where
  passed : List ε
  failed : List ε
deriving DecidableEq, Repr

/-! ## The story decorator (src/stories.py lines 34 to 43)

The decorated function first type-checks its argument, then wraps the
inner output under the keys id, name, output. -/

inductive StoryField (ρ : Type) where
  | str : String → StoryField ρ
  | out : ρ → StoryField ρ
deriving DecidableEq, Repr

/-- The dictionary built at line 41 of src/stories.py:
id, name, and the whole inner result under the key output. -/
def story {ρ : Type} (id_ name : String) (o : ρ) : List (String × StoryField ρ) :=
  [("id", StoryField.str id_), ("name", StoryField.str name), ("output", StoryField.out o)]

/-- The argument a story function receives: a gedcom.File or a value of
any other Python type. -/
inductive PyArg where
  | file : File → PyArg
  | notFile : PyArg

/-- The decorated story function: raises TypeError unless the argument
is a gedcom.File (line 39), otherwise runs the rule and wraps its
output (line 41). -/
def storyRun {ρ : Type} (id_ name : String) (func : File → M ρ) : PyArg → M (List (String × StoryField ρ))
  | PyArg.file g => (func g).map (story id_ name)
  | PyArg.notFile => Except.error ("TypeError: Story function must be provided a gedcom file object.")

/-! ## Error US02: birth_before_marriage (src/stories.py lines 78 to 103)

Iterates the individuals having a birth date and, inside, their FAMS
families having a marriage date; every such pair yields one evidence
entry, placed in passed iff birth precedes marriage.  The message
string of an entry is presentation only and is omitted here. -/

structure Ev02 where
  indi_xref : String
  indi_birth : Date
  fam_xref : String
  fam_marr : Date
deriving DecidableEq, Repr

def bbm_indi (g : File) (indi : Individual) : List (Ev02 × Bool) :=
  match indi.birth_date with
  | none => []
  | some b =>
    (indi.famsOf g).filterMap fun fam =>
      match fam.marriage_date with
      | none => none
      | some m => some (⟨indi.xref, b, fam.xref, m⟩, Date.lt b m)

def birth_before_marriage (g : File) : Output Ev02 :=
  let es := g.individuals.flatMap (bbm_indi g)
  ⟨es.filterMap (fun e => if e.2 then some e.1 else none),
   es.filterMap (fun e => if e.2 then none else some e.1)⟩

/-! ## Error US05: marriage_before_death (src/stories.py lines 161 to 210)

For every family with a marriage date the out dictionary is built from
guarded accesses, then the branch chain dereferences fam.husband and,
depending on short-circuit evaluation, fam.wife without a guard; with a
missing spouse the Python code raises AttributeError there. -/

structure Ev05 where
  family_xref : String
  marriage_date : Date
  husband_xref : Option String
  wife_xref : Option String
  husband_death_date : Option Date
  wife_death_date : Option Date
deriving DecidableEq, Repr

def mbd_fam (g : File) (fam : Family) (m : Date) : M (Option (Ev05 × Bool)) := do
  let husbO := fam.husbandI g
  let wifeO := fam.wifeI g
  -- lines 176 to 183: every access in the out dictionary is guarded
  let out : Ev05 :=
    { family_xref := fam.xref
      marriage_date := m
      husband_xref := husbO.map (fun i => i.xref)
      wife_xref := wifeO.map (fun i => i.xref)
      husband_death_date := husbO.bind (fun i => i.death_date)
      wife_death_date := wifeO.bind (fun i => i.death_date) }
  -- line 185: fam.husband.has is evaluated first and unguarded
  let husb ← getAttr husbO ("AttributeError")
  match husb.death_date with
  | some hd => do
      -- the second conjunct of line 185 dereferences fam.wife
      let wife ← getAttr wifeO ("AttributeError")
      match wife.death_date with
      | some wd => pure (some (out, Date.lt m hd && Date.lt m wd))
      | none => pure (some (out, Date.lt m hd))
  | none => do
      -- line 185 short-circuits without touching fam.wife; line 203 then
      -- evaluates fam.wife.has
      let wife ← getAttr wifeO ("AttributeError")
      match wife.death_date with
      | some wd => pure (some (out, Date.lt m wd))
      | none => pure none

def marriage_before_death (g : File) : M (Output Ev05) :=
  g.families.foldlM (fun acc fam =>
    match fam.marriage_date with
    | none => pure acc
    | some m => do
        match ← mbd_fam g fam m with
        | none => pure acc
        | some (ev, true) => pure (⟨acc.passed ++ [ev], acc.failed⟩ : Output Ev05)
        | some (ev, false) => pure (⟨acc.passed, acc.failed ++ [ev]⟩ : Output Ev05))
    ⟨[], []⟩

/-! ## Error US06: divorce_before_death (src/stories.py lines 213 to 262)

For every family with a divorce date.  The out dictionary guards the
husband death access on the husband, but guards the wife death access
on the husband as well (line 234) and then dereferences the wife and
her death date unconditionally.  The branch chain marks a spouse clause
as passed when the death precedes the divorce. -/

structure Ev06 where
  family_xref : String
  divorce_date : Date
  husband_xref : Option String
  wife_xref : Option String
  husband_death_date : Option Date
  wife_death_date : Option Date
deriving DecidableEq, Repr

def dbd_fam (g : File) (fam : Family) (dv : Date) : M (Option (Ev06 × Bool)) := do
  let husbO := fam.husbandI g
  let wifeO := fam.wifeI g
  let husband_death : Option Date := husbO.bind (fun i => i.death_date)
  -- line 234: the wife death entry is guarded on the husband having a
  -- death date, then accesses fam.wife.death_date.story_dict
  let wife_death : Option Date ←
    if husband_death.isSome then do
      let w ← getAttr wifeO ("AttributeError")
      let wd ← getAttr w.death_date ("AttributeError")
      pure (some wd)
    else pure none
  let out : Ev06 :=
    { family_xref := fam.xref
      divorce_date := dv
      husband_xref := husbO.map (fun i => i.xref)
      wife_xref := wifeO.map (fun i => i.xref)
      husband_death_date := husband_death
      wife_death_date := wife_death }
  -- line 237: fam.husband.has, unguarded, with short-circuit as in US05
  let husb ← getAttr husbO ("AttributeError")
  match husb.death_date with
  | some hd => do
      let wife ← getAttr wifeO ("AttributeError")
      match wife.death_date with
      | some wd => pure (some (out, Date.lt hd dv && Date.lt wd dv))
      | none => pure (some (out, Date.lt hd dv))
  | none => do
      let wife ← getAttr wifeO ("AttributeError")
      match wife.death_date with
      | some wd => pure (some (out, Date.lt wd dv))
      | none => pure none

def divorce_before_death (g : File) : M (Output Ev06) :=
  g.families.foldlM (fun acc fam =>
    match fam.divorce_date with
    | none => pure acc
    | some dv => do
        match ← dbd_fam g fam dv with
        | none => pure acc
        | some (ev, true) => pure (⟨acc.passed ++ [ev], acc.failed⟩ : Output Ev06)
        | some (ev, false) => pure (⟨acc.passed, acc.failed ++ [ev]⟩ : Output Ev06))
    ⟨[], []⟩

/-! ## Error US09: birth_before_death_of_parents (src/stories.py lines 323 to 358)

Every child with a birth date of every family yields one evidence
entry.  The mother check (line 340) compares the child birth date with
the mother BIRTH date, and the father check (line 341) passes iff the
signed day count from the child birth date to the father BIRTH date,
floor-divided by 30, exceeds 9; both checks are gated only on the
parent having a death date.  A checked parent without a birth date
makes the Python code raise AttributeError (line 341 or line 347).
A missing check counts as vacuously passed (line 356). -/

structure Ev09 where
  family_xref : String
  child_xref : String
  child_birth : Date
  mother_xref : Option String
  mother_birth : Option Date
  father_xref : Option String
  father_birth : Option Date
deriving DecidableEq, Repr

def bbdp_child (g : File) (fam : Family) (child : Individual) (cb : Date) : M (Ev09 × Bool) := do
  let wifeO := fam.wifeI g
  let husbO := fam.husbandI g
  -- line 338: chk_mom = fam.has wife and fam.wife.has death_date
  let chk_mom := (wifeO.bind (fun i => i.death_date)).isSome
  -- line 339: chk_dad = fam.has husband and fam.husband.has death_date
  let chk_dad := (husbO.bind (fun i => i.death_date)).isSome
  let momData ←
    if chk_mom then do
      let w ← getAttr wifeO ("AttributeError")
      let wb ← getAttr w.birth_date ("AttributeError")
      pure (some (Date.lt cb wb), some w.xref, some wb)
    else
      pure ((none : Option Bool), wifeO.map (fun i => i.xref), (none : Option Date))
  let dadData ←
    if chk_dad then do
      let h ← getAttr husbO ("AttributeError")
      let hb ← getAttr h.birth_date ("AttributeError")
      pure (some (decide (((hb.toDays : Int) - (cb.toDays : Int)).fdiv 30 > 9)), some h.xref, some hb)
    else
      pure ((none : Option Bool), husbO.map (fun i => i.xref), (none : Option Date))
  let (mom_pass, mother_xref, mother_birth) := momData
  let (dad_pass, father_xref, father_birth) := dadData
  let ev : Ev09 :=
    { family_xref := fam.xref
      child_xref := child.xref
      child_birth := cb
      mother_xref := mother_xref
      mother_birth := mother_birth
      father_xref := father_xref
      father_birth := father_birth }
  -- line 356: passed = (mom_pass is None or True) and (dad_pass is None or True)
  pure (ev, mom_pass.getD true && dad_pass.getD true)

def birth_before_death_of_parents (g : File) : M (Output Ev09) :=
  g.families.foldlM (fun acc fam =>
    (fam.childrenI g).foldlM (fun acc child =>
      match child.birth_date with
      | none => pure acc
      | some cb => do
          let (ev, p) ← bbdp_child g fam child cb
          pure (if p then (⟨acc.passed ++ [ev], acc.failed⟩ : Output Ev09)
                else (⟨acc.passed, acc.failed ++ [ev]⟩ : Output Ev09)))
      acc)
    ⟨[], []⟩

/-! ## Anomaly US10: marriage_after_14 (src/stories.py lines 361 to 399)

Families lacking a marriage date, a husband with a birth date, or a
wife with a birth date are skipped (continue).  The family passes iff
both marriage ages are strictly greater than 14. -/

structure Ev10 where
  family_xref : String
  wife_xref : String
  wife_birth : Date
  wife_marriage_age : Int
  husband_xref : String
  husband_birth : Date
  husband_marriage_age : Int
deriving DecidableEq, Repr

/-- Modelled from the spec: the gedcom.py marriage-age properties
(wife_marriage_age, husband_marriage_age; gedcom.py is not under src/).
Per sections 3 and 4.1 ages are signed whole calendar years from the
birth date to the marriage date. -/
def marriage_age (marr birth : Date) : Int := years_between marr birth

def marriage_after_14 (g : File) : Output Ev10 :=
  g.families.foldl (fun acc fam =>
    match fam.marriage_date with
    | none => acc
    | some m =>
      match fam.husbandI g with
      | none => acc
      | some husb =>
        match husb.birth_date with
        | none => acc
        | some hb =>
          match fam.wifeI g with
          | none => acc
          | some wife =>
            match wife.birth_date with
            | none => acc
            | some wb =>
              let wAge := marriage_age m wb
              let hAge := marriage_age m hb
              let ev : Ev10 := ⟨fam.xref, wife.xref, wb, wAge, husb.xref, hb, hAge⟩
              -- line 397: passed = wife age > 14 and husband age > 14
              if decide (wAge > 14) && decide (hAge > 14)
              then ⟨acc.passed ++ [ev], acc.failed⟩
              else ⟨acc.passed, acc.failed ++ [ev]⟩)
    ⟨[], []⟩

/-! ## Anomaly US11: no_bigamy (src/stories.py lines 402 to 438)

For every individual and every pair of FAMS families both having
marriage dates, the pair FAILS iff the marriage intervals overlap:
start1 at most end2 and end1 at least start2 (line 428), where an
interval end may be the open-ended sentinel.  The code pops the raw
datetime out of the two derived end dictionaries before placing them in
the evidence.

Since the rule reads the graph through accessors and mutates only the
dictionaries the marriage_end derivation returned, the embedding
threads the graph value through every access explicitly, so that the
frame property (the graph after the run equals the graph before) is a
statement about the definition rather than about the ambient logic. -/

/-- The end of a marriage interval: a date, or the open-ended sentinel
treated as later than every date. -/
inductive EDate where
  | fin : Date → EDate
  | inf : EDate
deriving DecidableEq, Repr

def dateLeE (s : Date) (e : EDate) : Bool :=
  match e with
  | EDate.fin d => Date.le s d
  | EDate.inf => true

def eGeDate (e : EDate) (s : Date) : Bool :=
  match e with
  | EDate.fin d => Date.ge d s
  | EDate.inf => true

/-- Line 428 of src/stories.py: the interval pair fails iff
start1 at most end2 and end1 at least start2. -/
def overlaps (s1 : Date) (e1 : EDate) (s2 : Date) (e2 : EDate) : Bool :=
  dateLeE s1 e2 && eGeDate e1 s2

structure MarrEnd where
  dt : EDate
  reason : String
deriving DecidableEq, Repr

/-- Modelled from the spec: the gedcom.py marriage_end accessor
(gedcom.py is not under src/).  Per section 3 the interval end is the
divorce date if present, else the earlier of the recorded spouse death
dates if present, else the open-ended sentinel; a reason string
accompanies it. -/
def Family.marriage_end (fam : Family) (g : File) : MarrEnd :=
  match fam.divorce_date with
  | some d => ⟨EDate.fin d, "the family divorced"⟩
  | none =>
    match (fam.husbandI g).bind (fun i => i.death_date),
          (fam.wifeI g).bind (fun i => i.death_date) with
    | some a, some b => ⟨EDate.fin (if Date.le a b then a else b), "a spouse died"⟩
    | some a, none => ⟨EDate.fin a, "a spouse died"⟩
    | none, some b => ⟨EDate.fin b, "a spouse died"⟩
    | none, none => ⟨EDate.inf, "the marriage has not ended"⟩

/-- Modelled from the spec: the accessor derives the interval afresh
from the read-only graph and hands the graph back unchanged
(sections 3, 4.2 and 5: derived values, no mutation of the graph). -/
def Family.marriage_endSt (fam : Family) (g : File) : MarrEnd × File :=
  (fam.marriage_end g, g)

structure Ev11 where
  indi_xref : String
  fam1_xref : String
  fam1_marr : Date
  fam1_end_reason : String
  fam2_xref : String
  fam2_marr : Date
  fam2_end_reason : String
deriving DecidableEq, Repr

def nb_step (indi : Individual) (acc : Output Ev11 × File) (p : Family × Family) :
    Output Ev11 × File :=
  match p.1.marriage_date, p.2.marriage_date with
  | some s1, some s2 =>
      let r1 := p.1.marriage_endSt acc.2
      let r2 := p.2.marriage_endSt r1.2
      let failedB := overlaps s1 r1.1.dt s2 r2.1.dt
      -- line 429: end1.pop dt, end2.pop dt act on the derived local
      -- dictionaries; the evidence keeps only the remaining fields
      let ev : Ev11 := ⟨indi.xref, p.1.xref, s1, r1.1.reason, p.2.xref, s2, r2.1.reason⟩
      if failedB then (⟨acc.1.passed, acc.1.failed ++ [ev]⟩, r2.2)
      else (⟨acc.1.passed ++ [ev], acc.1.failed⟩, r2.2)
  | _, _ => acc

def nb_indi (acc : Output Ev11 × File) (indi : Individual) : Output Ev11 × File :=
  (combinations2 (indi.famsOf acc.2)).foldl (nb_step indi) acc

def no_bigamy_run (g : File) : Output Ev11 × File :=
  g.individuals.foldl nb_indi (⟨[], []⟩, g)

def no_bigamy (g : File) : Output Ev11 := (no_bigamy_run g).1

/-! ## Anomaly US13: siblings_spacing (src/stories.py lines 494 to 522)

For every family the children having birth dates form the sibling
list; when it has at least two members every itertools pair yields an
evidence entry, placed in passed iff the day count is strictly below 2
or strictly above 240 (line 521). -/

structure Ev13 where
  family_xref : String
  mother_xref : Option String
  father_xref : Option String
  days_apart : Nat
  sib1_xref : String
  sib1_birth : Date
  sib2_xref : String
  sib2_birth : Date
deriving DecidableEq, Repr

def sibsp_fam (g : File) (fam : Family) : List (Ev13 × Bool) :=
  let siblings := (fam.childrenI g).filter (fun c => c.birth_date.isSome)
  if siblings.length ≥ 2 then
    (combinations2 siblings).filterMap fun p =>
      match p.1.birth_date, p.2.birth_date with
      | some ba, some bb =>
          let days := days_between ba bb
          some (⟨fam.xref, (fam.wifeI g).map (fun i => i.xref),
                 (fam.husbandI g).map (fun i => i.xref),
                 days, p.1.xref, ba, p.2.xref, bb⟩,
                decide (days < 2) || decide (days > 240))
      | _, _ => none
  else []

def siblings_spacing (g : File) : Output Ev13 :=
  let es := g.families.flatMap (sibsp_fam g)
  ⟨es.filterMap (fun e => if e.2 then some e.1 else none),
   es.filterMap (fun e => if e.2 then none else some e.1)⟩

/-! ## Anomaly US18: siblings_should_not_marry (src/stories.py lines 607 to 651)

The locals out and msg_out are bound only inside the innermost sibling
loop and persist across iterations of every loop.  When a spouse of a
child is considered and the sibling loop body never runs, the trailing
passed append (lines 639 to 642) reads the locals; if they were never
bound in this call the Python code raises NameError.  The embedding
threads an optional last-bound evidence value through all the loops. -/

structure Ev18 where
  indi_xref : String
  fam_xref : String
deriving DecidableEq, Repr

structure SnmState where
  lastOut : Option Ev18
  passed : List Ev18
  failed : List Ev18
deriving DecidableEq, Repr

def snm_sib_loop (indi : Individual) (fam : Family) (spouse : Individual)
    (sibs : List Individual) (st : SnmState) (count : Nat) : SnmState × Nat :=
  match sibs with
  | [] => (st, count)
  | sib :: rest =>
      let out : Ev18 := ⟨indi.xref, fam.xref⟩
      let st := { st with lastOut := some out }
      if sib.xref == spouse.xref then
        snm_sib_loop indi fam spouse rest { st with failed := st.failed ++ [out] } (count + 1)
      else
        snm_sib_loop indi fam spouse rest st count

def snm_spouse_step (g : File) (fam : Family) (indi : Individual) (spouse : Individual)
    (st : SnmState) : M SnmState := do
  let sibs := (fam.childrenI g).filter (fun s => s.xref != indi.xref)
  let (st, count) := snm_sib_loop indi fam spouse sibs st 0
  if count == 0 then
    match st.lastOut with
    | none => Except.error ("NameError")
    | some out => pure { st with passed := st.passed ++ [out] }
  else pure st

def siblings_should_not_marry (g : File) : M (Output Ev18) := do
  let st ← g.families.foldlM (fun st fam =>
    (fam.childrenI g).foldlM (fun st indi =>
      (indi.spousesOf g).foldlM (fun st spouse =>
        snm_spouse_step g fam indi spouse st) st) st)
    (⟨none, [], []⟩ : SnmState)
  pure ⟨st.passed, st.failed⟩

/-! ## Concrete record graphs used to settle the claims -/

def emptyFile : File := ⟨[], []⟩

/-- A family with a marriage date and no spouse references. -/
def g7 : File := ⟨[], [⟨"F1", none, none, [], some ⟨2000, 1, 1⟩, none⟩]⟩

/-- A family whose only child has a birth date while neither parent is
recorded, so no parent death date exists. -/
def gC1 : File :=
  ⟨[⟨"I1", some ⟨1990, 1, 1⟩, none, []⟩],
   [⟨"F1", none, none, ["I1"], none, none⟩]⟩

/-- A family whose child is born 1995, after the mother birth (1970)
and well before the mother death (2000); the father died 2001. -/
def gC2 : File :=
  ⟨[⟨"H1", some ⟨1970, 1, 1⟩, some ⟨2001, 1, 1⟩, []⟩,
    ⟨"W1", some ⟨1970, 6, 1⟩, some ⟨2000, 1, 1⟩, []⟩,
    ⟨"C1", some ⟨1995, 1, 1⟩, none, []⟩],
   [⟨"F1", some "H1", some "W1", ["C1"], none, none⟩]⟩

/-- A family divorced in 2000 whose spouses both died in 1990, so the
divorce is after both deaths. -/
def gC3 : File :=
  ⟨[⟨"H1", none, some ⟨1990, 1, 1⟩, []⟩,
    ⟨"W1", none, some ⟨1990, 6, 1⟩, []⟩],
   [⟨"F1", some "H1", some "W1", [], none, some ⟨2000, 6, 1⟩⟩]⟩

/-- A family with two children born exactly 2 days apart. -/
def gC4 : File :=
  ⟨[⟨"K1", some ⟨1990, 3, 1⟩, none, []⟩,
    ⟨"K2", some ⟨1990, 3, 3⟩, none, []⟩],
   [⟨"F1", none, none, ["K1", "K2"], none, none⟩]⟩

/-- A family with two children born exactly 241 days apart. -/
def gC4w : File :=
  ⟨[⟨"K3", some ⟨1990, 1, 1⟩, none, []⟩,
    ⟨"K4", some ⟨1990, 8, 30⟩, none, []⟩],
   [⟨"F2", none, none, ["K3", "K4"], none, none⟩]⟩

def evC4w : Ev13 := ⟨"F2", none, none, 241, "K3", ⟨1990, 1, 1⟩, "K4", ⟨1990, 8, 30⟩⟩

/-- A family married on the exact fourteenth birthday of both spouses. -/
def gC9 : File :=
  ⟨[⟨"H1", some ⟨1980, 1, 1⟩, none, []⟩,
    ⟨"W1", some ⟨1980, 1, 1⟩, none, []⟩],
   [⟨"F1", some "H1", some "W1", [], some ⟨1994, 1, 1⟩, none⟩]⟩

/-- A family whose only child is married: the child has a spouse and no
siblings. -/
def g10 : File :=
  ⟨[⟨"A1", none, none, ["F2"]⟩,
    ⟨"B1", none, none, ["F2"]⟩],
   [⟨"F1", none, none, ["A1"], none, none⟩,
    ⟨"F2", some "A1", some "B1", [], none, none⟩]⟩

/-- An individual with a birth date married in a family with a
marriage date, yielding one passed evidence entry of US02. -/
def gW : File :=
  ⟨[⟨"I1", some ⟨1980, 1, 1⟩, none, ["F1"]⟩],
   [⟨"F1", none, none, [], some ⟨2005, 1, 1⟩, none⟩]⟩

def evW : Ev02 := ⟨"I1", ⟨1980, 1, 1⟩, "F1", ⟨2005, 1, 1⟩⟩

/-! ## Theorems -/

theorem foldl_snd_fixed {α β γ : Type} (f : β × γ → α → β × γ)
    (h : ∀ acc a, (f acc a).2 = acc.2) :
    ∀ (l : List α) (acc : β × γ), (l.foldl f acc).2 = acc.2
  | [], _ => rfl
  | x :: xs, acc => by
      rw [List.foldl_cons, foldl_snd_fixed f h xs (f acc x), h]

theorem nb_step_snd (indi : Individual) (acc : Output Ev11 × File) (p : Family × Family) :
    (nb_step indi acc p).2 = acc.2 := by
  unfold nb_step
  cases p.1.marriage_date <;> cases p.2.marriage_date <;> try rfl
  simp only [Family.marriage_endSt]
  split <;> rfl

theorem nb_indi_snd (acc : Output Ev11 × File) (indi : Individual) :
    (nb_indi acc indi).2 = acc.2 := by
  unfold nb_indi
  exact foldl_snd_fixed (nb_step indi) (nb_step_snd indi) _ acc

/-- C8: no Rule mutates the record graph.  The no_bigamy rule, whose
pop of the dt entries is the one place that mutates a dictionary,
operates on interval records derived afresh from the graph and returns
the graph it was given unchanged. -/
theorem no_bigamy_preserves_graph (g : File) : (no_bigamy_run g).2 = g := by
  unfold no_bigamy_run
  exact foldl_snd_fixed nb_indi nb_indi_snd g.individuals (⟨[], []⟩, g)

/-- C5: the interval-overlap predicate used by the no-bigamy rule is
symmetric: it gives the same truth value on the pair (I1, I2) as on
(I2, I1), including when either end is the open-ended sentinel. -/
theorem overlaps_symm (s1 : Date) (e1 : EDate) (s2 : Date) (e2 : EDate) :
    overlaps s1 e1 s2 e2 = overlaps s2 e2 s1 e1 := by
  cases e1 <;> cases e2 <;>
    simp [overlaps, dateLeE, eGeDate, Date.ge, Bool.and_comm]

/-- C1 is refuted as stated: in the birth_before_death_of_parents
rule a child whose required relations are absent (no recorded parent,
hence no parent death date) still produces an evidence entry, placed in
the passed list, rather than being excluded. -/
theorem bbdp_missing_parent_data_still_reported :
    birth_before_death_of_parents gC1 =
      Except.ok ⟨[⟨"F1", "I1", ⟨1990, 1, 1⟩, none, none, none, none⟩], []⟩ := by
  rfl

/-- C2: the code contradicts its own docstring.  With the mother born
1970-06-01, dead 2000-01-01, the father born 1970-01-01, dead
2001-01-01, and the child born 1995-01-01, the claim puts the child in
passed (birth precedes the mother death, and birth is not after nine
months past the father death), but birth_before_death_of_parents
compares against the parent BIRTH dates and places the child in
failed. -/
theorem bbdp_uses_birth_dates_eval :
    birth_before_death_of_parents gC2 =
      Except.ok ⟨[], [⟨"F1", "C1", ⟨1995, 1, 1⟩, some "W1", some ⟨1970, 6, 1⟩,
                       some "H1", some ⟨1970, 1, 1⟩⟩]⟩ := by
  rfl

/-- C3: the code contradicts its own docstring.  With a divorce in 2000
and both spouse deaths in 1990 the claim requires the family in failed
(the divorce does not precede either death), but divorce_before_death
passes a spouse clause when the death precedes the divorce and places
the family in passed. -/
theorem divorce_before_death_inverted_eval :
    divorce_before_death gC3 =
      Except.ok ⟨[⟨"F1", ⟨2000, 6, 1⟩, some "H1", some "W1",
                   some ⟨1990, 1, 1⟩, some ⟨1990, 6, 1⟩⟩], []⟩ := by
  rfl

/-- C4 is refuted as stated: two siblings born exactly 2 days apart are
placed in the failed list of siblings_spacing, not the passed list,
because the lower boundary is strict (days strictly below 2 pass). -/
theorem siblings_spacing_two_days_fails :
    siblings_spacing gC4 =
      ⟨[], [⟨"F1", none, none, 2, "K1", ⟨1990, 3, 1⟩, "K2", ⟨1990, 3, 3⟩⟩]⟩ := by
  rfl

/-- C9: the code contradicts its own docstring (marriage at least 14
years after birth).  A family married on the exact fourteenth birthday
of both spouses, so both marriage ages equal 14, is placed in failed by
marriage_after_14 because the comparison is strict, while the claim
says an age of exactly 14 meets the minimum. -/
theorem marriage_after_14_boundary_eval :
    marriage_after_14 gC9 =
      ⟨[], [⟨"F1", "W1", ⟨1980, 1, 1⟩, 14, "H1", ⟨1980, 1, 1⟩, 14⟩]⟩ := by
  rfl

/-- C10: on a graph where the only child of a family has a spouse and
no siblings, siblings_should_not_marry raises a NameError (the locals
out and msg_out are read at lines 639 to 642 without ever having been
bound), instead of returning a result. -/
theorem siblings_should_not_marry_raises_only_child :
    siblings_should_not_marry g10 = Except.error ("NameError") := by
  rfl

/-- C7: the raises-iff contract fails in the only-if direction.  A
wrong argument type does raise TypeError, but marriage_before_death
also raises (AttributeError, line 185 dereferencing an absent husband)
on a valid record graph whose family has a marriage date and no
husband, where the claim requires a result. -/
theorem marriage_before_death_raises_on_missing_husband :
    (storyRun ("Error US05") ("marriage_before_death") marriage_before_death
        (PyArg.file g7) = Except.error ("AttributeError")) ∧
    (∀ (ρ : Type) (id_ name : String) (func : File → M ρ),
       storyRun id_ name func PyArg.notFile =
         Except.error ("TypeError: Story function must be provided a gedcom file object.")) :=
  ⟨rfl, fun _ _ _ _ => rfl⟩

/-- C6 is refuted as stated: the value a story function returns to the
caller has the top-level keys id, name and output; the passed and
failed evidence lists are nested under the output key rather than
being top-level fields. -/
theorem story_result_keys_counterexample :
    (storyRun ("Error US02") ("birth_before_marriage")
        (fun g => pure (birth_before_marriage g)) (PyArg.file emptyFile) =
      Except.ok (story ("Error US02") ("birth_before_marriage")
        (⟨[], []⟩ : Output Ev02))) ∧
    ((story ("Error US02") ("birth_before_marriage")
        (birth_before_marriage emptyFile)).map Prod.fst = ["id", "name", "output"]) ∧
    "passed" ∉ (story ("Error US02") ("birth_before_marriage")
        (birth_before_marriage emptyFile)).map Prod.fst := by
  refine ⟨rfl, rfl, by decide⟩

/-- C6 (amended): for every rule output the mapping returned to the
caller has exactly the top-level keys id, name and output, and the two
evidence sequences sit inside the value stored under output. -/
theorem story_result_nests_output {ρ : Type} (id_ name : String) (o : ρ) :
    ((story id_ name o).map Prod.fst = ["id", "name", "output"]) ∧
    (story id_ name o).lookup ("output") = some (StoryField.out o) :=
  ⟨rfl, rfl⟩

/-- C1 (amended): the missing-data exclusion is not uniform across the
rules (birth_before_death_of_parents reports a child even when the
parent death dates are absent), but it does hold for the cited
ordering rule: every evidence entry of birth_before_marriage, passed or
failed, arises from an individual that has a birth date and from one of
its FAMS families that has a marriage date. -/
theorem birth_before_marriage_requires_dates (g : File) (ev : Ev02)
    (h : ev ∈ (birth_before_marriage g).passed ∨ ev ∈ (birth_before_marriage g).failed) :
    ∃ i, i ∈ g.individuals ∧ i.xref = ev.indi_xref ∧ i.birth_date = some ev.indi_birth ∧
      ∃ fam, fam ∈ i.famsOf g ∧ fam.xref = ev.fam_xref ∧
        fam.marriage_date = some ev.fam_marr := by
  have hmem : ∃ p, p ∈ g.individuals.flatMap (bbm_indi g) ∧ p.1 = ev := by
    rcases h with h | h
    · simp only [birth_before_marriage, List.mem_filterMap] at h
      obtain ⟨e, he, hc⟩ := h
      cases hb : e.2
      · rw [hb] at hc; simp at hc
      · rw [hb] at hc; simp at hc; exact ⟨e, he, hc⟩
    · simp only [birth_before_marriage, List.mem_filterMap] at h
      obtain ⟨e, he, hc⟩ := h
      cases hb : e.2
      · rw [hb] at hc; simp at hc; exact ⟨e, he, hc⟩
      · rw [hb] at hc; simp at hc
  obtain ⟨p, hp, hpe⟩ := hmem
  rw [List.mem_flatMap] at hp
  obtain ⟨i, hi, hpi⟩ := hp
  refine ⟨i, hi, ?_⟩
  unfold bbm_indi at hpi
  cases hbd : i.birth_date
  · rw [hbd] at hpi; simp at hpi
  · rw [hbd] at hpi
    rw [List.mem_filterMap] at hpi
    obtain ⟨fam, hfam, hmatch⟩ := hpi
    cases hm : fam.marriage_date
    · rw [hm] at hmatch; simp at hmatch
    · rw [hm] at hmatch
      have hpEq := Option.some.inj hmatch
      subst hpEq
      subst hpe
      exact ⟨rfl, rfl, fam, hfam, rfl, hm⟩

/-- C1 witness: the amended statement applied to a concrete graph with
one married individual. -/
theorem birth_before_marriage_requires_dates_witness :
    ∃ i, i ∈ gW.individuals ∧ i.xref = evW.indi_xref ∧
      i.birth_date = some evW.indi_birth ∧
      ∃ fam, fam ∈ i.famsOf gW ∧ fam.xref = evW.fam_xref ∧
        fam.marriage_date = some evW.fam_marr :=
  birth_before_marriage_requires_dates gW evW (Or.inl (by decide))

theorem sibsp_mem_spec (g : File) (e : Ev13 × Bool)
    (h : e ∈ g.families.flatMap (sibsp_fam g)) :
    e.1.days_apart = days_between e.1.sib1_birth e.1.sib2_birth ∧
      e.2 = (decide (e.1.days_apart < 2) || decide (e.1.days_apart > 240)) := by
  rw [List.mem_flatMap] at h
  obtain ⟨fam, _, he⟩ := h
  simp only [sibsp_fam] at he
  split at he
  · rw [List.mem_filterMap] at he
    obtain ⟨p, _, hm⟩ := he
    cases h1 : p.1.birth_date <;> rw [h1] at hm
    · simp at hm
    · cases h2 : p.2.birth_date <;> rw [h2] at hm
      · simp at hm
      · have hEq := Option.some.inj hm
        subst hEq
        exact ⟨rfl, rfl⟩
  · simp at he

/-- C4 (amended): both sibling-spacing boundaries are strict on the
failing side: a pair of siblings passes iff its birth dates are
strictly fewer than 2 days apart or strictly more than 240 days apart,
so pairs exactly 2, 3 or 240 days apart fail and pairs exactly 241
days apart pass.  Every evidence entry of siblings_spacing records the
day count of its pair of birth dates and lands in passed or failed
accordingly. -/
theorem siblings_spacing_boundaries (g : File) (ev : Ev13) :
    (ev ∈ (siblings_spacing g).passed →
       ev.days_apart = days_between ev.sib1_birth ev.sib2_birth ∧
         (ev.days_apart < 2 ∨ 240 < ev.days_apart)) ∧
    (ev ∈ (siblings_spacing g).failed →
       ev.days_apart = days_between ev.sib1_birth ev.sib2_birth ∧
         2 ≤ ev.days_apart ∧ ev.days_apart ≤ 240) := by
  constructor
  · intro h
    simp only [siblings_spacing, List.mem_filterMap] at h
    obtain ⟨e, he, hc⟩ := h
    have spec := sibsp_mem_spec g e he
    cases hb : e.2
    · rw [hb] at hc; simp at hc
    · rw [hb] at hc; simp at hc
      subst hc
      refine ⟨spec.1, ?_⟩
      have h2 : (decide (e.1.days_apart < 2) || decide (e.1.days_apart > 240)) = true := by
        rw [← spec.2, hb]
      simpa using h2
  · intro h
    simp only [siblings_spacing, List.mem_filterMap] at h
    obtain ⟨e, he, hc⟩ := h
    have spec := sibsp_mem_spec g e he
    cases hb : e.2
    · rw [hb] at hc; simp at hc
      subst hc
      refine ⟨spec.1, ?_⟩
      have h2 : (decide (e.1.days_apart < 2) || decide (e.1.days_apart > 240)) = false := by
        rw [← spec.2, hb]
      simp at h2
      omega
    · rw [hb] at hc; simp at hc

/-- C4 witness: the amended statement applied to a concrete family
whose two children are born 241 days apart, giving a passed entry. -/
theorem siblings_spacing_boundaries_witness :
    evC4w.days_apart = days_between evC4w.sib1_birth evC4w.sib2_birth ∧
      (evC4w.days_apart < 2 ∨ 240 < evC4w.days_apart) :=
  (siblings_spacing_boundaries gC4w evC4w).1 (by decide)

end SSW
